import Mathlib

/-!
Verification of the payroll computation engine of the payroll-management-system
repository (backend/controllers: `calculatePayroll`, `calculateTax`,
`getWorkingDays`, `generatePayroll`, `approvePayroll`, `rejectPayroll`,
`generateBulkPayroll`).

Modelling conventions:
* Monetary amounts and hours are rationals (`ℚ`); JS numeric arithmetic is
  modelled exactly.
* Calendar dates are integers counting days since 1970-01-01 (midnight
  aligned, as the JS code constructs all dates via `new Date(year, month, day)`).
  `Date.prototype.getDay` (0 = Sunday .. 6 = Saturday) becomes `dayOfWeek`
  below; day 0 (1970-01-01) was a Thursday, i.e. `getDay = 4`.
* Mongo documents become Lean structures; a nullable / possibly-absent field
  becomes an `Option`, and the JS idiom `x?.f || 0` becomes
  `(x.bind f).getD 0`.
* The database collections consulted by the controllers are passed in as
  lists; a `find` with a filter becomes `List.filter`, `findOne` / `findById`
  become `List.find?`, and `save` of an existing document replaces it in the
  list by id.
-/

namespace PayrollSystem

/-! ### Calendar: working days (leaveController.js, `getWorkingDays`) -/

/-- JS `date.getDay()`: 0 = Sunday .. 6 = Saturday; day 0 of the epoch was a
Thursday. -/
def dayOfWeek (d : ℤ) : ℤ := (d + 4) % 7

/-- The loop body test of `getWorkingDays`: `dayOfWeek !== 0 && dayOfWeek !== 6`. -/
def isWeekday (d : ℤ) : Bool := decide (dayOfWeek d ≠ 0 ∧ dayOfWeek d ≠ 6)

/-- Count the weekdays among the `n` consecutive days starting at `s`. -/
def countWeekdays : ℤ → ℕ → ℕ
  | _, 0 => 0
  | s, n + 1 => (if isWeekday s then 1 else 0) + countWeekdays (s + 1) n

/-- `getWorkingDays(startDate, endDate)`: iterate the days from `s` to `e`
inclusive, counting those that are not Saturday or Sunday. -/
def getWorkingDays (s e : ℤ) : ℕ := countWeekdays s (e + 1 - s).toNat

/-- Days since 1970-01-01 of the civil date `(y, m, d)` (the value
`new Date(y, m - 1, d)` denotes, in days).  Standard civil-from-days
formula; `/` and `%` on `ℤ` are Euclidean, which matches the formula's
intent for all inputs used here.  For `m = 13` it coincides with month 1 of
year `y + 1`, matching JS `Date` month roll-over. -/
def dayNumber (y m d : ℤ) : ℤ :=
  let y' := if m ≤ 2 then y - 1 else y
  let era := y' / 400
  let yoe := y' - era * 400
  let mp := (m + 9) % 12
  let doy := (153 * mp + 2) / 5 + d - 1
  let doe := yoe * 365 + yoe / 4 - yoe / 100 + doy
  era * 146097 + doe - 719468

/-- `new Date(year, month - 1, 1)`: first day of the pay period. -/
def monthStart (year month : ℤ) : ℤ := dayNumber year month 1

/-- `new Date(year, month, 0)`: last day of the month (day before the first of
the next month). -/
def monthEnd (year month : ℤ) : ℤ := dayNumber year (month + 1) 1 - 1

example : dayNumber 1970 1 1 = 0 := by decide
example : dayNumber 2024 4 1 = 19814 := by decide
example : dayOfWeek 19814 = 1 := by decide
example : monthEnd 2024 4 = 19843 := by decide

/-! ### Data model -/

/-- `employee.salary.allowances` sub-document. -/
structure AllowancesCfg where
  hra : Option ℚ
  transport : Option ℚ
  medical : Option ℚ
  food : Option ℚ
  other : Option ℚ
  deriving DecidableEq

/-- `employee.salary.deductions` sub-document. -/
structure DeductionsCfg where
  professional : Option ℚ
  other : Option ℚ
  deriving DecidableEq

/-- `employee.salary` sub-document. -/
structure SalaryCfg where
  basic : Option ℚ
  allowances : Option AllowancesCfg
  deductions : Option DeductionsCfg
  deriving DecidableEq

/-- `employee.leaveBalance` sub-document. -/
structure LeaveBalance where
  annual : Option ℚ
  deriving DecidableEq

/-- The slice of an employee document read by the payroll engine. -/
structure Employee where
  eid : ℕ
  active : Bool
  department : Option ℕ
  salary : Option SalaryCfg
  leaveBalance : Option LeaveBalance
  deriving DecidableEq

/-- An attendance document: `checkIn = true` models a non-null `checkInTime`. -/
structure AttendanceRecord where
  employee : ℕ
  date : ℤ
  checkIn : Bool
  hoursWorked : Option ℚ
  deriving DecidableEq

inductive LeaveStatus where
  | pending
  | approved
  | rejected
  | cancelled
  deriving DecidableEq, BEq

/-- A leave document (the fields the payroll engine reads). -/
structure LeaveRecord where
  employee : ℕ
  status : LeaveStatus
  startDate : ℤ
  endDate : ℤ
  numberOfDays : ℤ
  deriving DecidableEq

/-- The `allowances` object built by `calculatePayroll`. -/
structure Allowances where
  hra : ℚ
  transport : ℚ
  medical : ℚ
  food : ℚ
  other : ℚ
  deriving DecidableEq

/-- The `deductions` object built by `calculatePayroll` (six fields:
`unpaidLeave` is added after the first five). -/
structure Deductions where
  tax : ℚ
  pf : ℚ
  esi : ℚ
  professional : ℚ
  other : ℚ
  unpaidLeave : ℚ
  deriving DecidableEq

/-- The breakdown object returned by `calculatePayroll`. -/
structure Breakdown where
  basicSalary : ℚ
  allowances : Allowances
  deductions : Deductions
  overtimeHours : ℚ
  overtimeAmount : ℚ
  grossPay : ℚ
  netPay : ℚ
  taxAmount : ℚ
  attendanceDays : ℕ
  workingDays : ℕ
  leaveDays : ℤ
  deriving DecidableEq

/-- JS `x || 0` applied to a possibly-absent numeric field. -/
def orZero (x : Option ℚ) : ℚ := x.getD 0

/-- `employee.salary?.basic || 0`. -/
def basicOf (e : Employee) : ℚ := orZero (e.salary.bind SalaryCfg.basic)

/-! ### The calculator (`calculatePayroll`, `calculateTax`) -/

/-- `calculateTax(grossPay)`: annualize, apply the bracket table, divide by 12. -/
def calculateTax (grossPay : ℚ) : ℚ :=
  let annualIncome := grossPay * 12
  let tax : ℚ :=
    if annualIncome ≤ 250000 then 0
    else if annualIncome ≤ 500000 then (annualIncome - 250000) * 0.05
    else if annualIncome ≤ 1000000 then 12500 + (annualIncome - 500000) * 0.20
    else 112500 + (annualIncome - 1000000) * 0.30
  tax / 12

/-- `Employee.findById(employeeId)`. -/
def findEmployee (dir : List Employee) (employeeId : ℕ) : Option Employee :=
  dir.find? (fun e => e.eid == employeeId)

/-- The `Attendance.find` query of `calculatePayroll`: same employee, date in
the period, non-null `checkInTime`. -/
def attendanceInPeriod (att : List AttendanceRecord) (employeeId : ℕ) (pStart pEnd : ℤ) :
    List AttendanceRecord :=
  att.filter fun r =>
    r.employee == employeeId && decide (pStart ≤ r.date) && decide (r.date ≤ pEnd) && r.checkIn

/-- The `Leave.find` query of `calculatePayroll`: same employee, approved,
interval overlapping the period. -/
def leavesInPeriod (lv : List LeaveRecord) (employeeId : ℕ) (pStart pEnd : ℤ) :
    List LeaveRecord :=
  lv.filter fun l =>
    l.employee == employeeId && l.status == LeaveStatus.approved &&
      decide (l.startDate ≤ pEnd) && decide (pStart ≤ l.endDate)

/-- The `leaveDays` accumulation loop: each fetched record contributes the
length in days of its interval clipped to the period (the JS millisecond
arithmetic `ceil((min − max)/86400000) + 1` is exact on midnight-aligned
dates). -/
def leaveDaysOf (recs : List LeaveRecord) (pStart pEnd : ℤ) : ℤ :=
  recs.foldl (fun acc l => acc + (min l.endDate pEnd - max l.startDate pStart + 1)) 0

/-- The `overtimeHours` reduction: `total + max(0, (hoursWorked || 0) - 8)`. -/
def overtimeOf (recs : List AttendanceRecord) : ℚ :=
  recs.foldl (fun total r => total + max 0 (orZero r.hoursWorked - 8)) 0

/-- The arithmetic body of `calculatePayroll`, after the employee has been
fetched and the attendance/leave queries have run. -/
def computeBreakdown (employee : Employee) (attendanceRecords : List AttendanceRecord)
    (leaveRecords : List LeaveRecord) (pStart pEnd : ℤ) : Breakdown :=
  let workingDays := getWorkingDays pStart pEnd
  let attendanceDays := attendanceRecords.length
  let leaveDays := leaveDaysOf leaveRecords pStart pEnd
  let overtimeHours := overtimeOf attendanceRecords
  let basicSalary := basicOf employee
  let dailyRate := basicSalary / (workingDays : ℚ)
  let allowances : Allowances :=
    { hra := orZero (employee.salary.bind fun s => s.allowances.bind AllowancesCfg.hra)
      transport := orZero (employee.salary.bind fun s => s.allowances.bind AllowancesCfg.transport)
      medical := orZero (employee.salary.bind fun s => s.allowances.bind AllowancesCfg.medical)
      food := orZero (employee.salary.bind fun s => s.allowances.bind AllowancesCfg.food)
      other := orZero (employee.salary.bind fun s => s.allowances.bind AllowancesCfg.other) }
  let totalAllowances :=
    allowances.hra + allowances.transport + allowances.medical + allowances.food +
      allowances.other
  let hourlyRate := basicSalary / ((workingDays : ℚ) * 8)
  let overtimeAmount := overtimeHours * hourlyRate * 1.5
  let grossPay := basicSalary + totalAllowances + overtimeAmount
  let tax := calculateTax grossPay
  let pf := min (grossPay * 0.12) 1800
  let esi := if grossPay ≤ 21000 then grossPay * 0.0075 else 0
  let professional :=
    orZero (employee.salary.bind fun s => s.deductions.bind DeductionsCfg.professional)
  let otherDed := orZero (employee.salary.bind fun s => s.deductions.bind DeductionsCfg.other)
  let unpaidLeaveDays :=
    max 0 ((leaveDays : ℚ) - orZero (employee.leaveBalance.bind LeaveBalance.annual))
  let unpaidLeave := unpaidLeaveDays * dailyRate
  let deductions : Deductions :=
    { tax := tax, pf := pf, esi := esi, professional := professional, other := otherDed
      unpaidLeave := unpaidLeave }
  let totalDeductions := tax + pf + esi + professional + otherDed + unpaidLeave
  let netPay := grossPay - totalDeductions
  { basicSalary := basicSalary
    allowances := allowances
    deductions := deductions
    overtimeHours := overtimeHours
    overtimeAmount := overtimeAmount
    grossPay := grossPay
    netPay := netPay
    taxAmount := tax
    attendanceDays := attendanceDays
    workingDays := workingDays
    leaveDays := leaveDays }

/-- The only way the `try` block of `calculatePayroll` can throw with in-model
data: `Employee.findById` returned `null` and the later `employee.salary`
dereference raises a `TypeError`. -/
inductive CalcError where
  | employeeNotFound
  deriving DecidableEq

/-- `calculatePayroll(employeeId, month, year)` with the pay period made
explicit: fetch the employee and the period's attendance/leave documents, then
run the arithmetic body. -/
def calculatePayroll (dir : List Employee) (att : List AttendanceRecord)
    (lv : List LeaveRecord) (employeeId : ℕ) (pStart pEnd : ℤ) :
    Except CalcError Breakdown :=
  match findEmployee dir employeeId with
  | none => .error .employeeNotFound
  | some employee =>
      .ok (computeBreakdown employee (attendanceInPeriod att employeeId pStart pEnd)
        (leavesInPeriod lv employeeId pStart pEnd) pStart pEnd)

/-! ### Record store and lifecycle (`generatePayroll`, `approvePayroll`,
`rejectPayroll`, `generateBulkPayroll`) -/

/-- The statuses the payroll controller writes. -/
inductive PayStatus where
  | pending
  | approved
  | rejected
  deriving DecidableEq, BEq

/-- A persisted payroll document.  The controller copies every field of the
calculator's breakdown into the new document; they are grouped here as `pay`. -/
structure PayrollRecord where
  rid : ℕ
  employee : ℕ
  month : ℕ
  year : ℕ
  pay : Breakdown
  status : PayStatus
  generatedBy : ℕ
  generatedDate : ℤ
  approvedBy : Option ℕ
  approvedDate : Option ℤ
  approverComments : Option String
  updatedBy : Option ℕ
  updatedAt : Option ℤ
  deriving DecidableEq

/-- `Payroll.findOne({ employee, month, year })`. -/
def findPayroll (st : List PayrollRecord) (employeeId month year : ℕ) :
    Option PayrollRecord :=
  st.find? fun r => r.employee == employeeId && r.month == month && r.year == year

/-- `Payroll.findById(id)`. -/
def findRecord (st : List PayrollRecord) (rid : ℕ) : Option PayrollRecord :=
  st.find? fun r => r.rid == rid

/-- Mongoose `save()` on a fetched document: replace it in the store by id. -/
def saveRecord (st : List PayrollRecord) (p : PayrollRecord) : List PayrollRecord :=
  st.map fun r => if r.rid == p.rid then p else r

/-- The 4xx outcomes of `generatePayroll` (`month`/`year` falsy, employee
missing, duplicate period) plus the 500 produced when `calculatePayroll`
throws. -/
inductive GenError where
  | missingInput
  | employeeNotFound
  | duplicateRecord
  | calcFailed
  deriving DecidableEq

/-- Build the document `generatePayroll` persists from a breakdown. -/
def newPayrollRecord (rid employeeId month year userId : ℕ) (now : ℤ) (b : Breakdown) :
    PayrollRecord :=
  { rid := rid
    employee := employeeId
    month := month
    year := year
    pay := b
    status := .pending
    generatedBy := userId
    generatedDate := now
    approvedBy := none
    approvedDate := none
    approverComments := none
    updatedBy := none
    updatedAt := none }

/-- `generatePayroll(req)`: validate inputs (`month`/`year` are numbers, so
the JS falsy check rejects 0; the employee id is an ObjectId string and is
treated as given), check the employee exists, reject an existing record for
the tuple, otherwise calculate, persist with `status = pending`, and return
the new document.  Errors leave the store untouched. -/
def generatePayroll (dir : List Employee) (att : List AttendanceRecord)
    (lv : List LeaveRecord) (st : List PayrollRecord)
    (newId employeeId month year userId : ℕ) (now : ℤ) :
    Except GenError PayrollRecord × List PayrollRecord :=
  if month = 0 ∨ year = 0 then (.error .missingInput, st)
  else
    match findEmployee dir employeeId with
    | none => (.error .employeeNotFound, st)
    | some _ =>
        match findPayroll st employeeId month year with
        | some _ => (.error .duplicateRecord, st)
        | none =>
            match calculatePayroll dir att lv employeeId (monthStart year month)
                (monthEnd year month) with
            | .error _ => (.error .calcFailed, st)
            | .ok b =>
                let p := newPayrollRecord newId employeeId month year userId now b
                (.ok p, st ++ [p])

inductive ApproveError where
  | recordNotFound
  | alreadyApproved
  deriving DecidableEq

/-- `approvePayroll(req)`: fetch by id; refuse only when the status is already
`approved`; otherwise (pending or rejected alike) stamp approver and date and
set `status = approved`. -/
def approvePayroll (st : List PayrollRecord) (rid userId : ℕ)
    (approverComments : Option String) (now : ℤ) :
    Except ApproveError PayrollRecord × List PayrollRecord :=
  match findRecord st rid with
  | none => (.error .recordNotFound, st)
  | some payroll =>
      if payroll.status = .approved then (.error .alreadyApproved, st)
      else
        let p :=
          { payroll with
            status := .approved
            approvedBy := some userId
            approvedDate := some now
            approverComments := approverComments
            updatedBy := some userId
            updatedAt := some now }
        (.ok p, saveRecord st p)

inductive RejectError where
  | recordNotFound
  | alreadyProcessed
  deriving DecidableEq

/-- `rejectPayroll(req)`: fetch by id; refuse unless the status is `pending`;
otherwise stamp and set `status = rejected`. -/
def rejectPayroll (st : List PayrollRecord) (rid userId : ℕ)
    (approverComments : Option String) (now : ℤ) :
    Except RejectError PayrollRecord × List PayrollRecord :=
  match findRecord st rid with
  | none => (.error .recordNotFound, st)
  | some payroll =>
      if payroll.status ≠ .pending then (.error .alreadyProcessed, st)
      else
        let p :=
          { payroll with
            status := .rejected
            approvedBy := some userId
            approvedDate := some now
            approverComments := approverComments
            updatedBy := some userId
            updatedAt := some now }
        (.ok p, saveRecord st p)

/-- One entry of the bulk result's `failed` list: the employee plus the
reason (`error.message` for a thrown error). -/
structure BulkFailed where
  employee : Employee
  reason : String
  deriving DecidableEq

/-- One entry of the bulk result's `successful` list. -/
structure BulkSuccess where
  employee : Employee
  payroll : PayrollRecord
  deriving DecidableEq

/-- The `results` accumulator of `generateBulkPayroll`. -/
structure BulkResults where
  successful : List BulkSuccess
  failed : List BulkFailed
  deriving DecidableEq

/-- `Employee.find({ status: 'active', department? })`. -/
def activeEmployees (dir : List Employee) (departmentId : Option ℕ) : List Employee :=
  dir.filter fun e =>
    e.active &&
      match departmentId with
      | none => true
      | some d => e.department == some d

/-- The per-employee loop of `generateBulkPayroll`: duplicate check, calculate,
persist; a failure is appended to `failed` and the loop continues. -/
def bulkLoop (dir : List Employee) (att : List AttendanceRecord) (lv : List LeaveRecord)
    (month year userId : ℕ) (now : ℤ) :
    List Employee → List PayrollRecord → ℕ → BulkResults × List PayrollRecord
  | [], st, _ => (⟨[], []⟩, st)
  | e :: rest, st, nid =>
      match findPayroll st e.eid month year with
      | some _ =>
          let res := bulkLoop dir att lv month year userId now rest st nid
          (⟨res.1.successful, ⟨e, "Payroll already exists for this month"⟩ :: res.1.failed⟩,
            res.2)
      | none =>
          match calculatePayroll dir att lv e.eid (monthStart year month)
              (monthEnd year month) with
          | .error _ =>
              let res := bulkLoop dir att lv month year userId now rest st nid
              (⟨res.1.successful,
                ⟨e, "Cannot read properties of null (reading salary)"⟩ :: res.1.failed⟩,
                res.2)
          | .ok b =>
              let p := newPayrollRecord nid e.eid month year userId now b
              let res := bulkLoop dir att lv month year userId now rest (st ++ [p]) (nid + 1)
              (⟨⟨e, p⟩ :: res.1.successful, res.1.failed⟩, res.2)

/-- `generateBulkPayroll(req)`: validate `month`/`year`, list the active
employees (optionally restricted to a department), and run the loop; the
batch itself never fails once the inputs are present. -/
def generateBulkPayroll (dir : List Employee) (att : List AttendanceRecord)
    (lv : List LeaveRecord) (st : List PayrollRecord) (month year userId : ℕ)
    (now : ℤ) (departmentId : Option ℕ) (firstId : ℕ) :
    Except String (BulkResults × List PayrollRecord) :=
  if month = 0 ∨ year = 0 then .error "Month and year are required"
  else .ok (bulkLoop dir att lv month year userId now (activeEmployees dir departmentId)
    st firstId)

/-! ### Helper lemmas: the recursions as sums, and weekday counting -/

theorem countWeekdays_zero (s : ℤ) : countWeekdays s 0 = 0 := by
  simp [countWeekdays]

theorem countWeekdays_succ (s : ℤ) (n : ℕ) :
    countWeekdays s (n + 1) = (if isWeekday s then 1 else 0) + countWeekdays (s + 1) n := by
  simp [countWeekdays]

theorem countWeekdays_add (a : ℕ) (s : ℤ) (b : ℕ) :
    countWeekdays s (a + b) = countWeekdays s a + countWeekdays (s + (a : ℤ)) b := by
  induction a generalizing s with
  | zero => simp [countWeekdays_zero]
  | succ a ih =>
      rw [show a + 1 + b = (a + b) + 1 from by omega, countWeekdays_succ,
        countWeekdays_succ, ih (s + 1)]
      rw [show (s + 1) + (a : ℤ) = s + ((a : ℕ) + 1 : ℕ) from by push_cast; ring]
      omega

/-- A fold of `countWeekdays`: one full unfolding of a 7-day window. -/
theorem cw7_unfold (s : ℤ) :
    countWeekdays s 7 =
      (if isWeekday s then 1 else 0) + ((if isWeekday (s + 1) then 1 else 0) +
      ((if isWeekday (s + 1 + 1) then 1 else 0) + ((if isWeekday (s + 1 + 1 + 1) then 1 else 0) +
      ((if isWeekday (s + 1 + 1 + 1 + 1) then 1 else 0) +
      ((if isWeekday (s + 1 + 1 + 1 + 1 + 1) then 1 else 0) +
      ((if isWeekday (s + 1 + 1 + 1 + 1 + 1 + 1) then 1 else 0) + 0)))))) := by
  rw [show (7 : ℕ) = 6 + 1 from rfl, countWeekdays_succ,
    show (6 : ℕ) = 5 + 1 from rfl, countWeekdays_succ,
    show (5 : ℕ) = 4 + 1 from rfl, countWeekdays_succ,
    show (4 : ℕ) = 3 + 1 from rfl, countWeekdays_succ,
    show (3 : ℕ) = 2 + 1 from rfl, countWeekdays_succ,
    show (2 : ℕ) = 1 + 1 from rfl, countWeekdays_succ,
    show (1 : ℕ) = 0 + 1 from rfl, countWeekdays_succ, countWeekdays_zero]

/-- Any 7 consecutive days contain exactly 5 weekdays. -/
theorem countWeekdays_seven (s : ℤ) : countWeekdays s 7 = 5 := by
  rw [cw7_unfold]
  simp only [isWeekday, dayOfWeek, decide_eq_true_eq]
  have h : s % 7 = 0 ∨ s % 7 = 1 ∨ s % 7 = 2 ∨ s % 7 = 3 ∨ s % 7 = 4 ∨ s % 7 = 5 ∨ s % 7 = 6 := by
    omega
  rcases h with h | h | h | h | h | h | h <;>
    [(have h0 : (s + 4) % 7 = 4 := by omega
      have h1 : (s + 1 + 4) % 7 = 5 := by omega
      have h2 : (s + 1 + 1 + 4) % 7 = 6 := by omega
      have h3 : (s + 1 + 1 + 1 + 4) % 7 = 0 := by omega
      have h4 : (s + 1 + 1 + 1 + 1 + 4) % 7 = 1 := by omega
      have h5 : (s + 1 + 1 + 1 + 1 + 1 + 4) % 7 = 2 := by omega
      have h6 : (s + 1 + 1 + 1 + 1 + 1 + 1 + 4) % 7 = 3 := by omega
      norm_num [h0, h1, h2, h3, h4, h5, h6]);
     (have h0 : (s + 4) % 7 = 5 := by omega
      have h1 : (s + 1 + 4) % 7 = 6 := by omega
      have h2 : (s + 1 + 1 + 4) % 7 = 0 := by omega
      have h3 : (s + 1 + 1 + 1 + 4) % 7 = 1 := by omega
      have h4 : (s + 1 + 1 + 1 + 1 + 4) % 7 = 2 := by omega
      have h5 : (s + 1 + 1 + 1 + 1 + 1 + 4) % 7 = 3 := by omega
      have h6 : (s + 1 + 1 + 1 + 1 + 1 + 1 + 4) % 7 = 4 := by omega
      norm_num [h0, h1, h2, h3, h4, h5, h6]);
     (have h0 : (s + 4) % 7 = 6 := by omega
      have h1 : (s + 1 + 4) % 7 = 0 := by omega
      have h2 : (s + 1 + 1 + 4) % 7 = 1 := by omega
      have h3 : (s + 1 + 1 + 1 + 4) % 7 = 2 := by omega
      have h4 : (s + 1 + 1 + 1 + 1 + 4) % 7 = 3 := by omega
      have h5 : (s + 1 + 1 + 1 + 1 + 1 + 4) % 7 = 4 := by omega
      have h6 : (s + 1 + 1 + 1 + 1 + 1 + 1 + 4) % 7 = 5 := by omega
      norm_num [h0, h1, h2, h3, h4, h5, h6]);
     (have h0 : (s + 4) % 7 = 0 := by omega
      have h1 : (s + 1 + 4) % 7 = 1 := by omega
      have h2 : (s + 1 + 1 + 4) % 7 = 2 := by omega
      have h3 : (s + 1 + 1 + 1 + 4) % 7 = 3 := by omega
      have h4 : (s + 1 + 1 + 1 + 1 + 4) % 7 = 4 := by omega
      have h5 : (s + 1 + 1 + 1 + 1 + 1 + 4) % 7 = 5 := by omega
      have h6 : (s + 1 + 1 + 1 + 1 + 1 + 1 + 4) % 7 = 6 := by omega
      norm_num [h0, h1, h2, h3, h4, h5, h6]);
     (have h0 : (s + 4) % 7 = 1 := by omega
      have h1 : (s + 1 + 4) % 7 = 2 := by omega
      have h2 : (s + 1 + 1 + 4) % 7 = 3 := by omega
      have h3 : (s + 1 + 1 + 1 + 4) % 7 = 4 := by omega
      have h4 : (s + 1 + 1 + 1 + 1 + 4) % 7 = 5 := by omega
      have h5 : (s + 1 + 1 + 1 + 1 + 1 + 4) % 7 = 6 := by omega
      have h6 : (s + 1 + 1 + 1 + 1 + 1 + 1 + 4) % 7 = 0 := by omega
      norm_num [h0, h1, h2, h3, h4, h5, h6]);
     (have h0 : (s + 4) % 7 = 2 := by omega
      have h1 : (s + 1 + 4) % 7 = 3 := by omega
      have h2 : (s + 1 + 1 + 4) % 7 = 4 := by omega
      have h3 : (s + 1 + 1 + 1 + 4) % 7 = 5 := by omega
      have h4 : (s + 1 + 1 + 1 + 1 + 4) % 7 = 6 := by omega
      have h5 : (s + 1 + 1 + 1 + 1 + 1 + 4) % 7 = 0 := by omega
      have h6 : (s + 1 + 1 + 1 + 1 + 1 + 1 + 4) % 7 = 1 := by omega
      norm_num [h0, h1, h2, h3, h4, h5, h6]);
     (have h0 : (s + 4) % 7 = 3 := by omega
      have h1 : (s + 1 + 4) % 7 = 4 := by omega
      have h2 : (s + 1 + 1 + 4) % 7 = 5 := by omega
      have h3 : (s + 1 + 1 + 1 + 4) % 7 = 6 := by omega
      have h4 : (s + 1 + 1 + 1 + 1 + 4) % 7 = 0 := by omega
      have h5 : (s + 1 + 1 + 1 + 1 + 1 + 4) % 7 = 1 := by omega
      have h6 : (s + 1 + 1 + 1 + 1 + 1 + 1 + 4) % 7 = 2 := by omega
      norm_num [h0, h1, h2, h3, h4, h5, h6])]

/-- Any 28 consecutive days contain exactly 20 weekdays. -/
theorem countWeekdays_twentyeight (s : ℤ) : countWeekdays s 28 = 20 := by
  rw [show (28 : ℕ) = 7 + (7 + (7 + 7)) from rfl, countWeekdays_add, countWeekdays_add,
    countWeekdays_add, countWeekdays_seven, countWeekdays_seven, countWeekdays_seven,
    countWeekdays_seven]

/-- Any span of at least 28 consecutive days contains at least 20 weekdays. -/
theorem countWeekdays_ge_twenty (s : ℤ) (n : ℕ) (h : 28 ≤ n) : 20 ≤ countWeekdays s n := by
  obtain ⟨m, rfl⟩ : ∃ m, n = 28 + m := ⟨n - 28, by omega⟩
  rw [countWeekdays_add, countWeekdays_twentyeight]
  omega

/-- Folding `fun a x => a + f x` over a list is the starting value plus the
sum of the images. -/
theorem foldl_add_eq {α M : Type} [AddMonoid M] (f : α → M) :
    ∀ (l : List α) (c : M), l.foldl (fun a x => a + f x) c = c + (l.map f).sum := by
  intro l
  induction l with
  | nil => simp
  | cons x xs ih => intro c; simp [ih, add_assoc]

theorem overtimeOf_eq_sum (recs : List AttendanceRecord) :
    overtimeOf recs = (recs.map fun r => max 0 (orZero r.hoursWorked - 8)).sum := by
  simpa [overtimeOf] using foldl_add_eq (fun r : AttendanceRecord =>
    max 0 (orZero r.hoursWorked - 8)) recs 0

theorem leaveDaysOf_eq_sum (recs : List LeaveRecord) (pStart pEnd : ℤ) :
    leaveDaysOf recs pStart pEnd =
      (recs.map fun l => min l.endDate pEnd - max l.startDate pStart + 1).sum := by
  simpa [leaveDaysOf] using foldl_add_eq (fun l : LeaveRecord =>
    min l.endDate pEnd - max l.startDate pStart + 1) recs 0

/-! ### Claim C1: end-to-end example -/

/-- The C1 employee: `basicSalary = 22000`, no allowances, no configured
deductions, an untouched annual leave balance. -/
def empC1 : Employee :=
  { eid := 1
    active := true
    department := none
    salary := some { basic := some 22000, allowances := none, deductions := none }
    leaveBalance := some { annual := some 21 } }

/-- The C1 attendance: 20 checked-in 8-hour days inside April 2024
(days 19814–19843, a 30-day period with 22 working days). -/
def attC1 : List AttendanceRecord :=
  (List.range 20).map fun i =>
    { employee := 1, date := 19814 + (i : ℤ), checkIn := true, hoursWorked := some 8 }

/-- **C1**: for an employee with `basicSalary = 22000`, zero allowances and
zero configured professional/other deductions, a pay period containing 22
working days, 20 attendance days, no overtime and no leave, the calculator
returns `grossPay = 22000`, `pf = 1800` (the 12% amount 2640 capped),
`esi = 0` (gross > 21000), monthly tax `((264000 − 250000) × 0.05) / 12 =
700/12 = 175/3 = 58.33…`, `unpaidLeave = 0`, and
`netPay = 22000 − 1800 − 175/3 = 60425/3 = 20141.66…`. -/
theorem claim_C1_end_to_end :
    calculatePayroll [empC1] attC1 [] 1 19814 19843 =
      .ok
        { basicSalary := 22000
          allowances := ⟨0, 0, 0, 0, 0⟩
          deductions :=
            { tax := 175 / 3, pf := 1800, esi := 0, professional := 0, other := 0
              unpaidLeave := 0 }
          overtimeHours := 0
          overtimeAmount := 0
          grossPay := 22000
          netPay := 60425 / 3
          taxAmount := 175 / 3
          attendanceDays := 20
          workingDays := 22
          leaveDays := 0 } := by
  norm_num [calculatePayroll, computeBreakdown, findEmployee, attendanceInPeriod,
    leavesInPeriod, leaveDaysOf, overtimeOf, basicOf, orZero, calculateTax,
    getWorkingDays, countWeekdays, isWeekday, dayOfWeek, empC1, attC1,
    List.range_succ, Breakdown.mk.injEq, Allowances.mk.injEq, Deductions.mk.injEq]

/-! ### Claim C2: the tax bracket table -/

/-- The spec's progressive bracket table, applied to an annualized income:
0 up to 250000; 5% on the excess up to 500000; 12500 plus 20% on the excess
up to 1000000; 112500 plus 30% on the excess beyond that.  (Spec-side
definition, to be compared with the source's `calculateTax`.) -/
def taxTableSpec (annual : ℚ) : ℚ :=
  if annual ≤ 250000 then 0
  else if annual ≤ 500000 then (annual - 250000) * (5 / 100)
  else if annual ≤ 1000000 then 12500 + (annual - 500000) * (20 / 100)
  else 112500 + (annual - 1000000) * (30 / 100)

/-- **C2**: for every `grossPay`, the monthly tax equals the fixed
progressive-bracket table applied to `grossPay × 12`, divided by 12; at
annualized income exactly 250000 the tax is 0, and at 250001 it is strictly
positive. -/
theorem claim_C2_tax_brackets :
    (∀ g : ℚ, calculateTax g = taxTableSpec (g * 12) / 12) ∧
      calculateTax (250000 / 12) = 0 ∧ 0 < calculateTax (250001 / 12) := by
  refine ⟨fun g => ?_, by norm_num [calculateTax], by norm_num [calculateTax]⟩
  simp only [calculateTax, taxTableSpec]
  split_ifs <;> norm_num

/-! ### Claim C3: per-period uniqueness of generation -/

/-- **C3**: for an existing employee and a valid month/year, `generate` fails
with `DuplicateRecord` when a record for the tuple already exists and leaves
the store (hence the earlier record) unchanged; when none exists and the
calculator succeeds on the period's data, it persists exactly the resulting
breakdown as a new record with `status = pending`. -/
theorem claim_C3_generate_uniqueness (dir : List Employee) (att : List AttendanceRecord)
    (lv : List LeaveRecord) (st : List PayrollRecord)
    (newId employeeId month year userId : ℕ) (now : ℤ)
    (hm : month ≠ 0) (hy : year ≠ 0) (emp : Employee)
    (hemp : findEmployee dir employeeId = some emp) :
    (∀ r₀, findPayroll st employeeId month year = some r₀ →
        generatePayroll dir att lv st newId employeeId month year userId now =
          (.error .duplicateRecord, st)) ∧
      (findPayroll st employeeId month year = none →
        ∀ b, calculatePayroll dir att lv employeeId (monthStart year month)
            (monthEnd year month) = .ok b →
          generatePayroll dir att lv st newId employeeId month year userId now =
            (.ok (newPayrollRecord newId employeeId month year userId now b),
              st ++ [newPayrollRecord newId employeeId month year userId now b]) ∧
            (newPayrollRecord newId employeeId month year userId now b).status = .pending ∧
            (newPayrollRecord newId employeeId month year userId now b).pay = b) := by
  constructor
  · intro r₀ hdup
    simp [generatePayroll, hm, hy, hemp, hdup]
  · intro hnone b hcalc
    refine ⟨?_, rfl, rfl⟩
    simp [generatePayroll, hm, hy, hemp, hnone, hcalc]

/-- A pre-existing pending record for employee 1, March 2024, used to witness
the duplicate branch of C3. -/
def recC3 : PayrollRecord :=
  newPayrollRecord 0 1 3 2024 9 0
    { basicSalary := 22000
      allowances := ⟨0, 0, 0, 0, 0⟩
      deductions := ⟨0, 1800, 0, 0, 0, 0⟩
      overtimeHours := 0
      overtimeAmount := 0
      grossPay := 22000
      netPay := 20200
      taxAmount := 0
      attendanceDays := 20
      workingDays := 21
      leaveDays := 0 }

theorem claim_C3_witness :
    generatePayroll [empC1] [] [] [recC3] 5 1 3 2024 9 0 = (.error .duplicateRecord, [recC3]) :=
  (claim_C3_generate_uniqueness [empC1] [] [] [recC3] 5 1 3 2024 9 0 (by decide) (by decide)
      empC1 (by rfl)).1 recC3 (by rfl)

/-! ### Claim C4: the approve transition guard

The source's `approvePayroll` only refuses when `status === 'approved'`
(leaveController.js line 1025); a record whose status is `rejected` passes the
guard and is approved, overwriting `approvedBy`/`approvedDate`.  The claim as
stated is therefore false; the amended claim follows the code. -/

/-- A payroll record that is already rejected, with an earlier approver stamp. -/
def recC4 : PayrollRecord :=
  { rid := 1
    employee := 1
    month := 3
    year := 2024
    pay :=
      { basicSalary := 22000
        allowances := ⟨0, 0, 0, 0, 0⟩
        deductions := ⟨0, 1800, 0, 0, 0, 0⟩
        overtimeHours := 0
        overtimeAmount := 0
        grossPay := 22000
        netPay := 20200
        taxAmount := 0
        attendanceDays := 20
        workingDays := 21
        leaveDays := 0 }
    status := .rejected
    generatedBy := 9
    generatedDate := 0
    approvedBy := some 7
    approvedDate := some 100
    approverComments := some "no"
    updatedBy := some 7
    updatedAt := some 100 }

/-- **C4 counterexample**: calling `approve` on a record whose status is
already `rejected` does not fail — it succeeds and alters `approvedBy` and
`approvedDate`, contradicting the claim at this concrete input. -/
theorem claim_C4_counterexample :
    recC4.status = .rejected ∧
      (approvePayroll [recC4] 1 2 none 5).1 =
        .ok { recC4 with
              status := .approved, approvedBy := some 2, approvedDate := some 5,
              approverComments := none, updatedBy := some 2, updatedAt := some 5 } ∧
      (approvePayroll [recC4] 1 2 none 5).1.isOk = true ∧
      some 2 ≠ recC4.approvedBy := by
  refine ⟨rfl, rfl, rfl, by decide⟩

/-- **C4 amended**: `approve` fails with the invalid-transition error exactly
when the record's status is already `approved`, and then leaves the store (in
particular `approvedBy`/`approvedDate`) unchanged; on a record whose status is
`pending` — or `rejected`, which the source's guard does not catch — it
succeeds, sets `status = approved`, and stamps the approver and timestamp. -/
theorem claim_C4_approve_guard_amended (st : List PayrollRecord) (rid userId : ℕ)
    (comments : Option String) (now : ℤ) (p : PayrollRecord)
    (hp : findRecord st rid = some p) :
    (p.status = .approved →
        approvePayroll st rid userId comments now = (.error .alreadyApproved, st)) ∧
      (p.status ≠ .approved →
        approvePayroll st rid userId comments now =
          (.ok { p with
                 status := .approved, approvedBy := some userId,
                 approvedDate := some now, approverComments := comments,
                 updatedBy := some userId, updatedAt := some now },
            saveRecord st { p with
                            status := .approved, approvedBy := some userId,
                            approvedDate := some now, approverComments := comments,
                            updatedBy := some userId, updatedAt := some now })) := by
  constructor
  · intro h
    simp [approvePayroll, hp, h]
  · intro h
    simp [approvePayroll, hp, h]

/-- A pending record to witness the amended C4 on its success branch. -/
def recC4p : PayrollRecord := { recC4 with status := .pending }

theorem claim_C4_witness :
    (recC4p.status = .approved →
        approvePayroll [recC4p] 1 2 none 5 = (.error .alreadyApproved, [recC4p])) ∧
      (recC4p.status ≠ .approved →
        approvePayroll [recC4p] 1 2 none 5 =
          (.ok { recC4p with
                 status := .approved, approvedBy := some 2,
                 approvedDate := some 5, approverComments := none,
                 updatedBy := some 2, updatedAt := some 5 },
            saveRecord [recC4p] { recC4p with
                                  status := .approved, approvedBy := some 2,
                                  approvedDate := some 5, approverComments := none,
                                  updatedBy := some 2, updatedAt := some 5 })) :=
  claim_C4_approve_guard_amended [recC4p] 1 2 none 5 recC4p (by rfl)

/-! ### Claim C5: failure modes of the calculator

The source's `calculatePayroll` has exactly one in-model failure: the employee
lookup returning `null` (the subsequent dereference throws).  A missing basic
salary is defaulted to 0 by `employee.salary?.basic || 0`, a negative one is
used as-is, and no division-by-zero error exists (a calendar-month period
always has at least 20 working days). -/

/-- An employee with no salary configuration at all. -/
def empC5 : Employee :=
  { eid := 1, active := true, department := none, salary := none, leaveBalance := none }

/-- An employee with a negative configured basic salary. -/
def empC5n : Employee :=
  { eid := 2
    active := true
    department := none
    salary := some { basic := some (-5), allowances := none, deductions := none }
    leaveBalance := none }

/-- **C5 counterexample**: the claim says the calculation fails with
`InvalidConfiguration` when the basic salary is missing or negative; in the
code both inputs produce a complete breakdown (missing salary is computed as
0), at these concrete inputs over a 30-day period with 22 working days. -/
theorem claim_C5_counterexample :
    empC5.salary = none ∧
      calculatePayroll [empC5] [] [] 1 4 33 =
        .ok
          { basicSalary := 0
            allowances := ⟨0, 0, 0, 0, 0⟩
            deductions := ⟨0, 0, 0, 0, 0, 0⟩
            overtimeHours := 0
            overtimeAmount := 0
            grossPay := 0
            netPay := 0
            taxAmount := 0
            attendanceDays := 0
            workingDays := 22
            leaveDays := 0 } ∧
      basicOf empC5n = -5 ∧ (calculatePayroll [empC5n] [] [] 2 4 33).isOk = true := by
  refine ⟨rfl, ?_, by norm_num [basicOf, orZero, empC5n], rfl⟩
  norm_num [calculatePayroll, computeBreakdown, findEmployee, attendanceInPeriod,
    leavesInPeriod, leaveDaysOf, overtimeOf, basicOf, orZero, calculateTax,
    getWorkingDays, countWeekdays, isWeekday, dayOfWeek, empC5,
    Breakdown.mk.injEq, Allowances.mk.injEq, Deductions.mk.injEq]

/-- **C5 amended**: the calculation fails exactly when the employee does not
exist; a missing basic salary is defaulted to 0 and a negative basic salary is
accepted, both yielding a complete breakdown, and a zero working-day count
cannot arise for a calendar-month pay period, since any span of at least 28
consecutive days contains at least 20 working days. -/
theorem claim_C5_failure_modes_amended :
    (∀ (dir : List Employee) (att : List AttendanceRecord) (lv : List LeaveRecord)
        (employeeId : ℕ) (pStart pEnd : ℤ),
      (calculatePayroll dir att lv employeeId pStart pEnd).isOk = true ↔
        (findEmployee dir employeeId).isSome = true) ∧
      (∀ s e : ℤ, 28 ≤ e + 1 - s → 20 ≤ getWorkingDays s e) := by
  constructor
  · intro dir att lv employeeId pStart pEnd
    cases h : findEmployee dir employeeId <;>
      simp [calculatePayroll, h, Except.isOk, Except.toBool]
  · intro s e h
    have h' : 28 ≤ (e + 1 - s).toNat := by omega
    exact countWeekdays_ge_twenty s _ h'

theorem claim_C5_witness :
    ((calculatePayroll [] [] [] 1 0 0).isOk = true ↔ (findEmployee [] 1).isSome = true) ∧
      20 ≤ getWorkingDays 4 33 :=
  ⟨claim_C5_failure_modes_amended.1 [] [] [] 1 0 0,
    claim_C5_failure_modes_amended.2 4 33 (by decide)⟩

/-! ### Claim C7: net pay is gross pay minus the six deductions, unclamped -/

/-- An employee whose configured recurring deduction exceeds the gross pay. -/
def empC7 : Employee :=
  { eid := 1
    active := true
    department := none
    salary :=
      some
        { basic := some 1000
          allowances := none
          deductions := some { professional := some 5000, other := none } }
    leaveBalance := none }

/-- **C7**: every returned breakdown satisfies
`netPay = grossPay − (tax + pf + esi + professional + other + unpaidLeave)`,
with no clamping at zero; for the concrete over-deducted employee `empC7`
(basic 1000, professional deduction 5000, 22 working days) the net pay is the
strictly negative `−8255/2 = −4127.5`. -/
theorem claim_C7_net_pay :
    (∀ (dir : List Employee) (att : List AttendanceRecord) (lv : List LeaveRecord)
        (employeeId : ℕ) (pStart pEnd : ℤ) (b : Breakdown),
      calculatePayroll dir att lv employeeId pStart pEnd = .ok b →
        b.netPay = b.grossPay - (b.deductions.tax + b.deductions.pf + b.deductions.esi +
          b.deductions.professional + b.deductions.other + b.deductions.unpaidLeave)) ∧
      calculatePayroll [empC7] [] [] 1 4 33 =
        .ok
          { basicSalary := 1000
            allowances := ⟨0, 0, 0, 0, 0⟩
            deductions := ⟨0, 120, 15 / 2, 5000, 0, 0⟩
            overtimeHours := 0
            overtimeAmount := 0
            grossPay := 1000
            netPay := -8255 / 2
            taxAmount := 0
            attendanceDays := 0
            workingDays := 22
            leaveDays := 0 } ∧
      (-8255 / 2 : ℚ) < 0 := by
  refine ⟨?_, ?_, by norm_num⟩
  · intro dir att lv employeeId pStart pEnd b hcalc
    cases h : findEmployee dir employeeId with
    | none => simp [calculatePayroll, h] at hcalc
    | some employee =>
        rw [calculatePayroll, h] at hcalc
        obtain rfl : computeBreakdown employee (attendanceInPeriod att employeeId pStart pEnd)
            (leavesInPeriod lv employeeId pStart pEnd) pStart pEnd = b := by
          simpa using hcalc
        simp only [computeBreakdown]
  · norm_num [calculatePayroll, computeBreakdown, findEmployee, attendanceInPeriod,
      leavesInPeriod, leaveDaysOf, overtimeOf, basicOf, orZero, calculateTax,
      getWorkingDays, countWeekdays, isWeekday, dayOfWeek, empC7,
      Breakdown.mk.injEq, Allowances.mk.injEq, Deductions.mk.injEq]

theorem claim_C7_witness :
    (computeBreakdown empC1 [] [] 4 33).netPay =
      (computeBreakdown empC1 [] [] 4 33).grossPay -
        ((computeBreakdown empC1 [] [] 4 33).deductions.tax +
          (computeBreakdown empC1 [] [] 4 33).deductions.pf +
          (computeBreakdown empC1 [] [] 4 33).deductions.esi +
          (computeBreakdown empC1 [] [] 4 33).deductions.professional +
          (computeBreakdown empC1 [] [] 4 33).deductions.other +
          (computeBreakdown empC1 [] [] 4 33).deductions.unpaidLeave) :=
  claim_C7_net_pay.1 [empC1] [] [] 1 4 33 (computeBreakdown empC1 [] [] 4 33) rfl

/-! ### Claim C6: bulk generation partitions the employees and never rolls back -/

/-- Induction workhorse for C6: the loop of `generateBulkPayroll` produces a
partition of the processed employees, attaches a non-empty reason to every
failure, preserves every record already in the store, and keeps every
successful entry's record in the final store. -/
theorem bulkLoop_spec (dir : List Employee) (att : List AttendanceRecord)
    (lv : List LeaveRecord) (month year userId : ℕ) (now : ℤ) :
    ∀ (emps : List Employee) (st : List PayrollRecord) (nid : ℕ),
      (bulkLoop dir att lv month year userId now emps st nid).1.successful.length +
          (bulkLoop dir att lv month year userId now emps st nid).1.failed.length =
        emps.length ∧
      (∀ e ∈ emps,
        (∃ x ∈ (bulkLoop dir att lv month year userId now emps st nid).1.successful,
            x.employee = e) ∨
        (∃ x ∈ (bulkLoop dir att lv month year userId now emps st nid).1.failed,
            x.employee = e)) ∧
      (∀ x ∈ (bulkLoop dir att lv month year userId now emps st nid).1.failed,
        x.reason ≠ "") ∧
      (∀ r ∈ st, r ∈ (bulkLoop dir att lv month year userId now emps st nid).2) ∧
      (∀ x ∈ (bulkLoop dir att lv month year userId now emps st nid).1.successful,
        x.payroll ∈ (bulkLoop dir att lv month year userId now emps st nid).2) := by
  intro emps
  induction emps with
  | nil => intro st nid; simp [bulkLoop]
  | cons e rest ih =>
      intro st nid
      cases hdup : findPayroll st e.eid month year with
      | some r₀ =>
          obtain ⟨h1, h2, h3, h4, h5⟩ := ih st nid
          simp only [bulkLoop, hdup]
          refine ⟨by simpa using by omega, ?_, ?_, h4, h5⟩
          · intro e' he'
            rcases List.mem_cons.mp he' with rfl | hmem
            · exact Or.inr ⟨⟨e', "Payroll already exists for this month"⟩,
                List.mem_cons_self _ _, rfl⟩
            · rcases h2 e' hmem with ⟨x, hx, hxe⟩ | ⟨x, hx, hxe⟩
              · exact Or.inl ⟨x, hx, hxe⟩
              · exact Or.inr ⟨x, List.mem_cons_of_mem _ hx, hxe⟩
          · intro x hx
            rcases List.mem_cons.mp hx with rfl | hmem
            · simp
            · exact h3 x hmem
      | none =>
          cases hcalc : calculatePayroll dir att lv e.eid (monthStart year month)
              (monthEnd year month) with
          | error err =>
              obtain ⟨h1, h2, h3, h4, h5⟩ := ih st nid
              simp only [bulkLoop, hdup, hcalc]
              refine ⟨by simpa using by omega, ?_, ?_, h4, h5⟩
              · intro e' he'
                rcases List.mem_cons.mp he' with rfl | hmem
                · exact Or.inr ⟨⟨e', "Cannot read properties of null (reading salary)"⟩,
                    List.mem_cons_self _ _, rfl⟩
                · rcases h2 e' hmem with ⟨x, hx, hxe⟩ | ⟨x, hx, hxe⟩
                  · exact Or.inl ⟨x, hx, hxe⟩
                  · exact Or.inr ⟨x, List.mem_cons_of_mem _ hx, hxe⟩
              · intro x hx
                rcases List.mem_cons.mp hx with rfl | hmem
                · simp
                · exact h3 x hmem
          | ok b =>
              obtain ⟨h1, h2, h3, h4, h5⟩ :=
                ih (st ++ [newPayrollRecord nid e.eid month year userId now b]) (nid + 1)
              simp only [bulkLoop, hdup, hcalc]
              refine ⟨by simpa using by omega, ?_, h3, ?_, ?_⟩
              · intro e' he'
                rcases List.mem_cons.mp he' with rfl | hmem
                · exact Or.inl ⟨⟨e', newPayrollRecord nid e'.eid month year userId now b⟩,
                    List.mem_cons_self _ _, rfl⟩
                · rcases h2 e' hmem with ⟨x, hx, hxe⟩ | ⟨x, hx, hxe⟩
                  · exact Or.inl ⟨x, List.mem_cons_of_mem _ hx, hxe⟩
                  · exact Or.inr ⟨x, hx, hxe⟩
              · intro r hr
                exact h4 r (List.mem_append_left _ hr)
              · intro x hx
                rcases List.mem_cons.mp hx with rfl | hmem
                · exact h4 _ (List.mem_append_right _ (List.mem_singleton_self _))
                · exact h5 x hmem

/-- **C6**: for a valid month/year, bulk generation returns (never aborts) a
partition `{successful, failed}` covering all active employees of the
requested scope, attaches a reason to each failed entry, and never removes
records already persisted — in particular, records persisted for other
employees earlier in the batch survive later failures. -/
theorem claim_C6_bulk_partition (dir : List Employee) (att : List AttendanceRecord)
    (lv : List LeaveRecord) (st : List PayrollRecord) (month year userId : ℕ)
    (now : ℤ) (departmentId : Option ℕ) (firstId : ℕ)
    (hm : month ≠ 0) (hy : year ≠ 0) :
    ∃ res st',
      generateBulkPayroll dir att lv st month year userId now departmentId firstId =
          .ok (res, st') ∧
        res.successful.length + res.failed.length =
          (activeEmployees dir departmentId).length ∧
        (∀ e ∈ activeEmployees dir departmentId,
          (∃ x ∈ res.successful, x.employee = e) ∨ (∃ x ∈ res.failed, x.employee = e)) ∧
        (∀ x ∈ res.failed, x.reason ≠ "") ∧
        (∀ r ∈ st, r ∈ st') ∧
        (∀ x ∈ res.successful, x.payroll ∈ st') := by
  obtain ⟨h1, h2, h3, h4, h5⟩ :=
    bulkLoop_spec dir att lv month year userId now (activeEmployees dir departmentId) st firstId
  refine ⟨_, _, ?_, h1, h2, h3, h4, h5⟩
  simp [generateBulkPayroll, hm, hy]

theorem claim_C6_witness :
    ∃ res st',
      generateBulkPayroll [empC1] [] [] [] 3 2024 9 0 none 5 = .ok (res, st') ∧
        res.successful.length + res.failed.length = (activeEmployees [empC1] none).length ∧
        (∀ e ∈ activeEmployees [empC1] none,
          (∃ x ∈ res.successful, x.employee = e) ∨ (∃ x ∈ res.failed, x.employee = e)) ∧
        (∀ x ∈ res.failed, x.reason ≠ "") ∧
        (∀ r ∈ ([] : List PayrollRecord), r ∈ st') ∧
        (∀ x ∈ res.successful, x.payroll ∈ st') :=
  claim_C6_bulk_partition [empC1] [] [] [] 3 2024 9 0 none 5 (by decide) (by decide)

/-! ### Claim C8: leave days are clipped to the period -/

/-- Spec-side: one record's contribution is the number of days of its interval
that fall inside the pay period. -/
def clippedDays (l : LeaveRecord) (pStart pEnd : ℤ) : ℕ :=
  (Finset.Icc l.startDate l.endDate ∩ Finset.Icc pStart pEnd).card

/-- Spec-side total: sum the clipped contributions of the approved leave
records of this employee whose interval overlaps the period. -/
def specLeaveDays (lv : List LeaveRecord) (employeeId : ℕ) (pStart pEnd : ℤ) : ℕ :=
  ((leavesInPeriod lv employeeId pStart pEnd).map fun l => clippedDays l pStart pEnd).sum

theorem Icc_inter_Icc_int (a₁ b₁ a₂ b₂ : ℤ) :
    Finset.Icc a₁ b₁ ∩ Finset.Icc a₂ b₂ = Finset.Icc (max a₁ a₂) (min b₁ b₂) := by
  ext x
  simp only [Finset.mem_inter, Finset.mem_Icc]
  omega

theorem clippedDays_eq (l : LeaveRecord) (pStart pEnd : ℤ)
    (hse : l.startDate ≤ l.endDate) (hp : pStart ≤ pEnd)
    (h1 : l.startDate ≤ pEnd) (h2 : pStart ≤ l.endDate) :
    (clippedDays l pStart pEnd : ℤ) =
      min l.endDate pEnd - max l.startDate pStart + 1 := by
  rw [clippedDays, Icc_inter_Icc_int, Int.card_Icc]
  omega

/-- **C8**: for a well-formed period and well-formed leave records, the
calculator's `leaveDays` equals the sum, over the approved leave records
overlapping the period, of each record's days clipped to the period
boundaries; a record lying entirely inside the period whose `numberOfDays` is
the length of its interval (as the application endpoint computes it)
contributes exactly `numberOfDays`. -/
theorem claim_C8_leave_days (lv : List LeaveRecord) (employeeId : ℕ) (pStart pEnd : ℤ)
    (hp : pStart ≤ pEnd) (hwf : ∀ l ∈ lv, l.startDate ≤ l.endDate) :
    leaveDaysOf (leavesInPeriod lv employeeId pStart pEnd) pStart pEnd =
        (specLeaveDays lv employeeId pStart pEnd : ℤ) ∧
      (∀ l ∈ lv, pStart ≤ l.startDate → l.endDate ≤ pEnd →
        l.numberOfDays = l.endDate - l.startDate + 1 →
        (clippedDays l pStart pEnd : ℤ) = l.numberOfDays) := by
  constructor
  · rw [leaveDaysOf_eq_sum, specLeaveDays, Nat.cast_list_sum, List.map_map]
    refine congrArg List.sum ?_
    refine List.map_congr_left ?_
    intro l hl
    have hmem := List.mem_filter.mp hl
    have hconds := hmem.2
    simp only [Bool.and_eq_true, decide_eq_true_eq] at hconds
    exact (clippedDays_eq l pStart pEnd (hwf l hmem.1) hp hconds.1.2 hconds.2).symm
  · intro l hl hs he hnum
    rw [clippedDays_eq l pStart pEnd (hwf l hl) hp (le_trans (hwf l hl) he)
      (le_trans hs (hwf l hl)), hnum]
    omega

/-- A concrete leave record spanning two periods, to witness C8: approved,
days 19800–19820, of which only 19814–19820 lie inside April 2024. -/
def leaveC8 : LeaveRecord :=
  { employee := 1, status := .approved, startDate := 19800, endDate := 19820,
    numberOfDays := 21 }

theorem claim_C8_witness :
    leaveDaysOf (leavesInPeriod [leaveC8] 1 19814 19843) 19814 19843 =
        (specLeaveDays [leaveC8] 1 19814 19843 : ℤ) ∧
      (∀ l ∈ [leaveC8], (19814 : ℤ) ≤ l.startDate → l.endDate ≤ 19843 →
        l.numberOfDays = l.endDate - l.startDate + 1 →
        (clippedDays l 19814 19843 : ℤ) = l.numberOfDays) :=
  claim_C8_leave_days [leaveC8] 1 19814 19843 (by decide)
    (by intro l hl; rcases List.mem_singleton.mp hl with rfl; decide)

/-! ### Shared lemmas on the attendance aggregation -/

theorem attendanceInPeriod_append (l₁ l₂ : List AttendanceRecord) (employeeId : ℕ)
    (pStart pEnd : ℤ) :
    attendanceInPeriod (l₁ ++ l₂) employeeId pStart pEnd =
      attendanceInPeriod l₁ employeeId pStart pEnd ++
        attendanceInPeriod l₂ employeeId pStart pEnd := by
  simp [attendanceInPeriod]

theorem overtimeOf_append (l₁ l₂ : List AttendanceRecord) :
    overtimeOf (l₁ ++ l₂) = overtimeOf l₁ + overtimeOf l₂ := by
  simp [overtimeOf_eq_sum]

/-- The `attendanceDays` of a breakdown is the length of the fetched
attendance list. -/
theorem computeBreakdown_attendanceDays (e : Employee) (A : List AttendanceRecord)
    (L : List LeaveRecord) (s p : ℤ) :
    (computeBreakdown e A L s p).attendanceDays = A.length := rfl

/-- The `overtimeAmount` of a breakdown, in closed form. -/
theorem computeBreakdown_overtimeAmount (e : Employee) (A : List AttendanceRecord)
    (L : List LeaveRecord) (s p : ℤ) :
    (computeBreakdown e A L s p).overtimeAmount =
      overtimeOf A * (basicOf e / ((getWorkingDays s p : ℚ) * 8)) * 1.5 := rfl

/-- Every monetary output of the breakdown depends on the attendance list only
through `overtimeOf`. -/
theorem computeBreakdown_congr_overtime (e : Employee) (L : List LeaveRecord) (s p : ℤ)
    (A A' : List AttendanceRecord) (hov : overtimeOf A' = overtimeOf A) :
    (computeBreakdown e A' L s p).grossPay = (computeBreakdown e A L s p).grossPay ∧
      (computeBreakdown e A' L s p).netPay = (computeBreakdown e A L s p).netPay ∧
      (computeBreakdown e A' L s p).deductions = (computeBreakdown e A L s p).deductions ∧
      (computeBreakdown e A' L s p).overtimeAmount =
        (computeBreakdown e A L s p).overtimeAmount ∧
      (computeBreakdown e A' L s p).allowances = (computeBreakdown e A L s p).allowances ∧
      (computeBreakdown e A' L s p).overtimeHours =
        (computeBreakdown e A L s p).overtimeHours := by
  simp [computeBreakdown, hov]

/-- Strict monotonicity of the overtime channel when the rate is positive. -/
theorem computeBreakdown_overtime_strict (e : Employee) (L : List LeaveRecord) (s p : ℤ)
    (A A' : List AttendanceRecord) (hb : 0 < basicOf e) (hw : 0 < getWorkingDays s p)
    (hov : overtimeOf A < overtimeOf A') :
    (computeBreakdown e A L s p).overtimeAmount <
        (computeBreakdown e A' L s p).overtimeAmount ∧
      (computeBreakdown e A L s p).grossPay < (computeBreakdown e A' L s p).grossPay := by
  have hrate : 0 < basicOf e / ((getWorkingDays s p : ℚ) * 8) := by
    apply div_pos hb
    have : (0 : ℚ) < (getWorkingDays s p : ℚ) := by exact_mod_cast hw
    nlinarith
  have hamount :
      (computeBreakdown e A L s p).overtimeAmount <
        (computeBreakdown e A' L s p).overtimeAmount := by
    rw [computeBreakdown_overtimeAmount, computeBreakdown_overtimeAmount]
    have h1 := mul_lt_mul_of_pos_right hov hrate
    have h2 := mul_lt_mul_of_pos_right h1 (show (0 : ℚ) < 1.5 by norm_num)
    exact h2
  refine ⟨hamount, ?_⟩
  simp only [computeBreakdown]
  have hallow :
      (computeBreakdown e A L s p).allowances = (computeBreakdown e A' L s p).allowances :=
    rfl
  simp only [computeBreakdown, computeBreakdown_overtimeAmount] at hamount ⊢
  linarith

/-! ### Claim C9: overtime monotonicity

With `basicSalary = 0` the hourly rate is 0 and the overtime amount stays 0
however many hours are worked, so the claimed strict increase fails; it holds
once the basic salary is positive (the period, a calendar month, always has a
working day, which the model takes as a hypothesis). -/

/-- An employee with a configured basic salary of 0. -/
def empC9 : Employee :=
  { eid := 1
    active := true
    department := none
    salary := some { basic := some 0, allowances := none, deductions := none }
    leaveBalance := none }

/-- **C9 counterexample**: with `basicSalary = 0`, raising the single
attendance record's hours from 8 to 10 increases `overtimeHours` (0 to 2) but
leaves `overtimeAmount` and `grossPay` unchanged — the claimed strict increase
fails at this concrete input. -/
theorem claim_C9_counterexample :
    ∃ b b',
      calculatePayroll [empC9] [⟨1, 19814, true, some 8⟩] [] 1 19814 19843 = .ok b ∧
        calculatePayroll [empC9] [⟨1, 19814, true, some 10⟩] [] 1 19814 19843 = .ok b' ∧
        b.overtimeHours = 0 ∧ b'.overtimeHours = 2 ∧
        b'.overtimeAmount = b.overtimeAmount ∧ b'.grossPay = b.grossPay := by
  refine ⟨_, _, rfl, rfl, ?_, ?_, ?_, ?_⟩ <;>
    norm_num [computeBreakdown, attendanceInPeriod, leavesInPeriod, leaveDaysOf,
      overtimeOf, basicOf, orZero, calculateTax, getWorkingDays, countWeekdays,
      isWeekday, dayOfWeek, empC9]

/-- **C9 amended**: holding the employee configuration, all other attendance
records, and all leave records fixed, and provided the employee's basic salary
is positive (and the period has a working day, as a calendar month always
does), increasing a single in-period checked-in attendance record's
`hoursWorked` to a value beyond 8 strictly increases `overtimeAmount` and
therefore strictly increases `grossPay`. -/
theorem claim_C9_overtime_monotonic_amended (dir : List Employee)
    (att₁ att₂ : List AttendanceRecord) (lv : List LeaveRecord) (employeeId : ℕ)
    (pStart pEnd : ℤ) (emp : Employee) (r : AttendanceRecord) (h h' : ℚ)
    (hemp : findEmployee dir employeeId = some emp) (hbasic : 0 < basicOf emp)
    (hwd : 0 < getWorkingDays pStart pEnd) (hre : r.employee = employeeId)
    (hd1 : pStart ≤ r.date) (hd2 : r.date ≤ pEnd) (hci : r.checkIn = true)
    (hh8 : 8 < h') (hhh : h < h') :
    ∃ b b',
      calculatePayroll dir (att₁ ++ [{ r with hoursWorked := some h }] ++ att₂) lv
          employeeId pStart pEnd = .ok b ∧
        calculatePayroll dir (att₁ ++ [{ r with hoursWorked := some h' }] ++ att₂) lv
          employeeId pStart pEnd = .ok b' ∧
        b.overtimeAmount < b'.overtimeAmount ∧ b.grossPay < b'.grossPay := by
  refine ⟨_, _, by rw [calculatePayroll, hemp], by rw [calculatePayroll, hemp], ?_⟩
  have hsingle : ∀ x : ℚ,
      attendanceInPeriod [{ r with hoursWorked := some x }] employeeId pStart pEnd =
        [{ r with hoursWorked := some x }] := by
    intro x
    simp [attendanceInPeriod, hre, hd1, hd2, hci]
  have hov : overtimeOf (attendanceInPeriod
        (att₁ ++ [{ r with hoursWorked := some h }] ++ att₂) employeeId pStart pEnd) <
      overtimeOf (attendanceInPeriod
        (att₁ ++ [{ r with hoursWorked := some h' }] ++ att₂) employeeId pStart pEnd) := by
    rw [attendanceInPeriod_append, attendanceInPeriod_append, hsingle,
      attendanceInPeriod_append, attendanceInPeriod_append, hsingle,
      overtimeOf_append, overtimeOf_append, overtimeOf_append, overtimeOf_append]
    have hone : ∀ x : ℚ, overtimeOf [{ r with hoursWorked := some x }] = max 0 (x - 8) := by
      intro x
      simp [overtimeOf, orZero]
    rw [hone, hone]
    have hlt : max 0 (h - 8) < max 0 (h' - 8) := by
      rw [max_eq_right (show (0 : ℚ) ≤ h' - 8 by linarith)]
      exact max_lt_iff.mpr ⟨by linarith, by linarith⟩
    exact add_lt_add_right (add_lt_add_left hlt _) _
  exact computeBreakdown_overtime_strict emp _ pStart pEnd _ _ hbasic hwd hov

/-- A concrete checked-in attendance record inside the C9 witness period. -/
def attRecC9 : AttendanceRecord := ⟨1, 19814, true, some 8⟩

theorem claim_C9_witness :
    ∃ b b',
      calculatePayroll [empC1] ([] ++ [{ attRecC9 with hoursWorked := some 8 }] ++ [])
          [] 1 19814 19843 = .ok b ∧
        calculatePayroll [empC1] ([] ++ [{ attRecC9 with hoursWorked := some 10 }] ++ [])
          [] 1 19814 19843 = .ok b' ∧
        b.overtimeAmount < b'.overtimeAmount ∧ b.grossPay < b'.grossPay :=
  claim_C9_overtime_monotonic_amended [empC1] [] [] [] 1 19814 19843 empC1 attRecC9 8 10 rfl
    (by norm_num [basicOf, orZero, empC1]) (by decide) rfl (by decide) (by decide) rfl
    (by norm_num) (by norm_num)

/-! ### Claim C10: attendance without overtime never changes pay -/

/-- **C10**: adding attendance records whose `hoursWorked` is at most 8 leaves
`grossPay`, `netPay`, every deduction, the overtime amount and the allowances
unchanged; only the reported `attendanceDays` count grows (by the number of
added records that are checked-in and inside the period).  Absence therefore
never reduces pay through any channel other than the unpaid-leave deduction. -/
theorem claim_C10_attendance_noninterference (dir : List Employee)
    (att extra : List AttendanceRecord) (lv : List LeaveRecord) (employeeId : ℕ)
    (pStart pEnd : ℤ) (emp : Employee)
    (hemp : findEmployee dir employeeId = some emp)
    (hex : ∀ r ∈ extra, orZero r.hoursWorked ≤ 8) :
    ∃ b b',
      calculatePayroll dir att lv employeeId pStart pEnd = .ok b ∧
        calculatePayroll dir (att ++ extra) lv employeeId pStart pEnd = .ok b' ∧
        b'.grossPay = b.grossPay ∧ b'.netPay = b.netPay ∧
        b'.deductions = b.deductions ∧ b'.overtimeAmount = b.overtimeAmount ∧
        b'.allowances = b.allowances ∧
        b'.attendanceDays =
          b.attendanceDays + (attendanceInPeriod extra employeeId pStart pEnd).length := by
  refine ⟨_, _, by rw [calculatePayroll, hemp], by rw [calculatePayroll, hemp], ?_⟩
  have hzero : overtimeOf (attendanceInPeriod extra employeeId pStart pEnd) = 0 := by
    rw [overtimeOf_eq_sum]
    apply List.sum_eq_zero
    intro x hx
    obtain ⟨r, hr, rfl⟩ := List.mem_map.mp hx
    have hr' : r ∈ extra := (List.mem_filter.mp hr).1
    have := hex r hr'
    simp only [max_eq_left_iff]
    linarith
  have hov : overtimeOf (attendanceInPeriod (att ++ extra) employeeId pStart pEnd) =
      overtimeOf (attendanceInPeriod att employeeId pStart pEnd) := by
    rw [attendanceInPeriod_append, overtimeOf_append, hzero, add_zero]
  obtain ⟨hg, hn, hd, ho, ha, _⟩ :=
    computeBreakdown_congr_overtime emp (leavesInPeriod lv employeeId pStart pEnd)
      pStart pEnd (attendanceInPeriod att employeeId pStart pEnd)
      (attendanceInPeriod (att ++ extra) employeeId pStart pEnd) hov
  refine ⟨hg, hn, hd, ho, ha, ?_⟩
  rw [computeBreakdown_attendanceDays, computeBreakdown_attendanceDays,
    attendanceInPeriod_append, List.length_append]

/-- An extra checked-in, no-overtime attendance day for the C10 witness. -/
def attRecC10 : AttendanceRecord := ⟨1, 19840, true, some 6⟩

theorem claim_C10_witness :
    ∃ b b',
      calculatePayroll [empC1] attC1 [] 1 19814 19843 = .ok b ∧
        calculatePayroll [empC1] (attC1 ++ [attRecC10]) [] 1 19814 19843 = .ok b' ∧
        b'.grossPay = b.grossPay ∧ b'.netPay = b.netPay ∧
        b'.deductions = b.deductions ∧ b'.overtimeAmount = b.overtimeAmount ∧
        b'.allowances = b.allowances ∧
        b'.attendanceDays =
          b.attendanceDays + (attendanceInPeriod [attRecC10] 1 19814 19843).length :=
  claim_C10_attendance_noninterference [empC1] attC1 [attRecC10] [] 1 19814 19843 empC1 rfl
    (by intro r hr
        rcases List.mem_singleton.mp hr with rfl
        norm_num [orZero, attRecC10])

end PayrollSystem
